import Mathlib

/-!
Verification of the single-file JSON database engine (`fridb.py`).

The development shallowly embeds the engine's state and operations.

* `Json` models the values produced by `json.loads` (numbers restricted to
  integers, which covers everything the engine itself ever writes).
* The `py*` helpers model the dynamic semantics of the Python primitives the
  engine applies to such values: `==`, `>` (as used by `max`), iteration,
  subscription, truthiness and `int()`.  Python exceptions other than the
  engine's own `DBError` are modelled by `PyErr`.
* `FriDB._load_db` models `FriDB._load_db`; file content is modelled in parsed
  form as `Option Json` where `none` stands for text that `json.loads` rejects.
* `FriDB.Sess` models the in-memory state of a `FriDB` object together with its
  backing file (parsed content, closed flag, and a count of completed writes),
  and the operations `create_table`, `drop_table`, `tables`, `insert`,
  `update`, `select`, `read`, `delete`, `save` and `disconnect` are translated
  line by line from the source.
-/

namespace FriDB

/-- Parsed JSON values (`json.loads` output); numbers are restricted to
integers, which is all the engine itself ever serializes. -/
inductive Json where
  | null : Json
  | bool : Bool → Json
  | num : Int → Json
  | str : String → Json
  | arr : List Json → Json
  | obj : List (String × Json) → Json
deriving Inhabited

/-- Python exceptions (other than the engine's own `DBError`) that the code in
`_load_db` and the row operations can raise. -/
inductive PyErr where
  | typeError
  | indexError
  | keyError
  | valueError
deriving Repr, DecidableEq

/-- First-match association-list lookup: Python `d[k]` / `k in d` for a
string-keyed dict in insertion order. -/
def jlookup {β : Type} (k : String) : List (String × β) → Option β
  | [] => none
  | (k', v) :: rest => if k' = k then some v else jlookup k rest

/-- Python `d[k] = v` on a string-keyed dict: replaces the value in place if
the key is present, otherwise appends a new entry (insertion order). -/
def aset {β : Type} (k : String) (v : β) : List (String × β) → List (String × β)
  | [] => [(k, v)]
  | (k', v') :: rest => if k' = k then (k, v) :: rest else (k', v') :: aset k v rest

/-- Python `del d[k]` on a string-keyed dict. -/
def adel {β : Type} (k : String) : List (String × β) → List (String × β)
  | [] => []
  | (k', v') :: rest => if k' = k then rest else (k', v') :: adel k rest

mutual
/-- Python `==` between parsed JSON values.  Booleans compare as the integers
0 and 1; mixed types otherwise compare unequal without an error. -/
def pyEq : Json → Json → Bool
  | .null, .null => true
  | .bool a, .bool b => a == b
  | .bool a, .num m => (if a then (1 : Int) else 0) == m
  | .num n, .bool b => n == (if b then (1 : Int) else 0)
  | .num n, .num m => n == m
  | .str a, .str b => a == b
  | .arr xs, .arr ys => pyEqList xs ys
  | .obj xs, .obj ys => xs.length == ys.length && pyEqObj xs ys
  | _, _ => false

/-- Python `==` between two lists: element-wise. -/
def pyEqList : List Json → List Json → Bool
  | [], [] => true
  | x :: xs, y :: ys => pyEq x y && pyEqList xs ys
  | _, _ => false

/-- Python `==` between two dicts: every key of the first maps to an equal
value in the second (combined with the length check in `pyEq`). -/
def pyEqObj : List (String × Json) → List (String × Json) → Bool
  | [], _ => true
  | (k, v) :: xs, ys =>
    (match jlookup k ys with
     | some w => pyEq v w
     | none => false) && pyEqObj xs ys
end

/-- Lexicographic `>` on code points, as Python compares strings. -/
def chListGt : List Char → List Char → Bool
  | _ :: _, [] => true
  | [], _ => false
  | a :: as, b :: bs => if a = b then chListGt as bs else decide (a.toNat > b.toNat)

/-- Python `>` on strings. -/
def strGt (a b : String) : Bool := chListGt a.data b.data

mutual
/-- Python `>` between parsed JSON values, as used by `max`.  Numbers and
booleans compare numerically, strings lexicographically, lists element-wise;
every other combination raises `TypeError`. -/
def pyGt : Json → Json → Except PyErr Bool
  | .num a, .num b => .ok (decide (a > b))
  | .num a, .bool b => .ok (decide (a > (if b then (1 : Int) else 0)))
  | .bool a, .num b => .ok (decide ((if a then (1 : Int) else 0) > b))
  | .bool a, .bool b => .ok (decide ((if a then (1 : Int) else 0) > (if b then (1 : Int) else 0)))
  | .str a, .str b => .ok (strGt a b)
  | .arr xs, .arr ys => pyGtList xs ys
  | _, _ => .error .typeError

/-- Python `>` between two lists: skip equal prefixes, compare the first
differing elements, fall back to length comparison. -/
def pyGtList : List Json → List Json → Except PyErr Bool
  | [], [] => .ok false
  | [], _ :: _ => .ok false
  | _ :: _, [] => .ok true
  | x :: xs, y :: ys => if pyEq x y then pyGtList xs ys else pyGt x y
end

/-- Python iteration `for x in j`: lists yield their elements, strings their
characters (as 1-character strings), dicts their keys; anything else raises
`TypeError`. -/
def pyIter : Json → Except PyErr (List Json)
  | .arr xs => .ok xs
  | .str s => .ok (s.data.map (fun c => .str (String.mk [c])))
  | .obj kvs => .ok (kvs.map (fun kv => .str kv.1))
  | _ => .error .typeError

/-- Normalize a Python sequence index (negative indices count from the end);
`none` when out of range. -/
def normIdx (len : Nat) (n : Int) : Option Nat :=
  if n < 0 then
    if n + len < 0 then none else some (n + len).toNat
  else
    if n < len then some n.toNat else none

/-- Python subscription `j[i]`.  Lists and strings accept integer (and
boolean) indices, dicts accept hashable keys (`KeyError` when absent,
`TypeError` on unhashable keys); everything else raises `TypeError`. -/
def pyIndex : Json → Json → Except PyErr Json
  | .arr xs, .num n =>
    match normIdx xs.length n with
    | some m => .ok (xs.getD m .null)
    | none => .error .indexError
  | .arr xs, .bool b =>
    match normIdx xs.length (if b then 1 else 0) with
    | some m => .ok (xs.getD m .null)
    | none => .error .indexError
  | .arr _, _ => .error .typeError
  | .str s, .num n =>
    match normIdx s.data.length n with
    | some m => .ok (.str (String.mk [s.data.getD m ' ']))
    | none => .error .indexError
  | .str s, .bool b =>
    match normIdx s.data.length (if b then 1 else 0) with
    | some m => .ok (.str (String.mk [s.data.getD m ' ']))
    | none => .error .indexError
  | .str _, _ => .error .typeError
  | .obj kvs, .str k =>
    match jlookup k kvs with
    | some v => .ok v
    | none => .error .keyError
  | .obj _, .arr _ => .error .typeError
  | .obj _, .obj _ => .error .typeError
  | .obj _, _ => .error .keyError
  | _, _ => .error .typeError

/-- Python list item assignment `l[i] = v`. -/
def pySetArr (xs : List Json) (i : Json) (v : Json) : Except PyErr (List Json) :=
  match i with
  | .num n =>
    match normIdx xs.length n with
    | some m => .ok (xs.set m v)
    | none => .error .indexError
  | .bool b =>
    match normIdx xs.length (if b then 1 else 0) with
    | some m => .ok (xs.set m v)
    | none => .error .indexError
  | _ => .error .typeError

/-- Python truthiness of a parsed JSON value. -/
def pyTruthy : Json → Bool
  | .null => false
  | .bool b => b
  | .num n => decide (n ≠ 0)
  | .str s => decide (s ≠ "")
  | .arr xs => !xs.isEmpty
  | .obj kvs => !kvs.isEmpty

/-- Whether a value may be used as a dict key (Python hashability). -/
def hashable : Json → Bool
  | .arr _ => false
  | .obj _ => false
  | _ => true

/-- Decimal digit parsing for `int()` applied to a string. -/
def digitsVal : List Char → Nat → Option Nat
  | [], acc => some acc
  | c :: rest, acc =>
    if c.isDigit then digitsVal rest (acc * 10 + (c.toNat - 48)) else none

/-- Parse a non-empty all-digit character list. -/
def digitsToNat : List Char → Option Nat
  | [] => none
  | cs => digitsVal cs 0

/-- Strip leading and trailing whitespace. -/
def stripWs (cs : List Char) : List Char :=
  ((cs.dropWhile Char.isWhitespace).reverse.dropWhile Char.isWhitespace).reverse

/-- Python `int(s)` on a string: optional sign and decimal digits after
stripping whitespace. -/
def pyIntOfStr (s : String) : Option Int :=
  match stripWs s.data with
  | '-' :: rest => (digitsToNat rest).map (fun n => -(n : Int))
  | '+' :: rest => (digitsToNat rest).map (fun n => (n : Int))
  | cs => (digitsToNat cs).map (fun n => (n : Int))

/-- Python `int(x)` on a parsed JSON value. -/
def pyInt : Json → Except PyErr Int
  | .num n => .ok n
  | .bool b => .ok (if b then 1 else 0)
  | .str s =>
    match pyIntOfStr s with
    | some n => .ok n
    | none => .error .valueError
  | _ => .error .typeError

/-- Python `max(first :: rest, key=lambda item: item[1])` over the (id, value)
pairs rebuilt by the first loop of `_load_db`: keeps the first maximum, raises
whatever the comparison of the values raises. -/
def pyMaxBySnd : Json × Json → List (Json × Json) → Except PyErr (Json × Json)
  | best, [] => .ok best
  | best, x :: rest => do
    let b ← pyGt x.2 best.2
    pyMaxBySnd (if b then x else best) rest

/-- Python `max(iterable, key=lambda item: item[1])` over raw values: each
element's key is `item[1]` via subscription. -/
def pyMaxByIdx1 (best bestKey : Json) : List Json → Except PyErr Json
  | [] => .ok best
  | x :: rest => do
    let kx ← pyIndex x (.num 1)
    let b ← pyGt kx bestKey
    if b then pyMaxByIdx1 x kx rest else pyMaxByIdx1 best bestKey rest

/-- In-memory state of `FriDB` right after `_load_db`: `_db` maps each table
name to its rebuilt list of `(row[0], row[1])` pairs, `_highest_id` holds the
recomputed per-table counter.  Ids and values are raw parsed values. -/
structure PyStore where
  db : List (String × List (Json × Json))
  highestId : List (String × Int)

/-- Result of a `_load_db` run that did not raise: the expected dict-shaped
store, or (`raw`) the untouched non-dict object left in `_db` together with
whatever `_highest_id` entries were written, which happens only when both
loops of `_load_db` run zero iterations. -/
inductive PyLoaded where
  | store : PyStore → PyLoaded
  | raw : Json → List (Json × Int) → PyLoaded

/-- The list comprehension `[(row[0], row[1]) for row in v]` from the first
loop of `_load_db`. -/
def loadTable (v : Json) : Except PyErr (List (Json × Json)) := do
  let items ← pyIter v
  items.mapM (fun row => do
    let a ← pyIndex row (.num 0)
    let b ← pyIndex row (.num 1)
    pure (a, b))

/-- Both loops of `_load_db` when `json.loads` produced a dict: rebuild every
table's row list as pairs, then recompute every table's highest id as
`int(max(rows, key=lambda item: item[1])[0]) if rows else -1`. -/
def loadDict (kvs : List (String × Json)) : Except PyErr PyStore := do
  let tabs ← kvs.mapM (fun kv => do
    let rows ← loadTable kv.2
    pure (kv.1, rows))
  let highs ← tabs.mapM (fun kv => do
    match kv.2 with
    | [] => pure (kv.1, (-1 : Int))
    | x :: rest => do
      let m ← pyMaxBySnd x rest
      let i ← pyInt m.1
      pure (kv.1, i))
  pure ⟨tabs, highs⟩

/-- The tuple list built by the comprehension, as it is stored back into a
list-shaped `_db` (tuples rendered as arrays; nothing later distinguishes
them). -/
def rawPairs (pairs : List (Json × Json)) : Json :=
  .arr (pairs.map (fun p => .arr [p.1, p.2]))

/-- First loop of `_load_db` when `json.loads` produced a list: Python
iterates the live list by index while the body reassigns entries, so the
simulation re-reads the (length-preserving) list each step.  The fuel is the
list length, which the loop never changes. -/
def simLoop1 : Nat → List Json → Nat → Except PyErr (List Json)
  | 0, l, _ => .ok l
  | fuel + 1, l, i =>
    if h : i < l.length then do
      let table := l.get ⟨i, h⟩
      let v ← pyIndex (.arr l) table
      let pairs ← loadTable v
      let l' ← pySetArr l table (rawPairs pairs)
      simLoop1 fuel l' (i + 1)
    else .ok l

/-- Python `d[k] = v` for the `Json`-keyed `_highest_id` dict (keys compared
with `==`; the original key object is kept on reassignment). -/
def dictSetJ (k : Json) (v : Int) : List (Json × Int) → List (Json × Int)
  | [] => [(k, v)]
  | (k', v') :: rest => if pyEq k' k then (k', v) :: rest else (k', v') :: dictSetJ k v rest

/-- Second loop of `_load_db` over a list-shaped `_db`: for each element,
index the list with it, evaluate the conditional max expression, and store the
result into `_highest_id` under that element (unhashable keys raise
`TypeError`, after the right-hand side was evaluated). -/
def simLoop2 (l : List Json) : List Json → List (Json × Int) → Except PyErr (List (Json × Int))
  | [], acc => .ok acc
  | table :: rest, acc => do
    let v ← pyIndex (.arr l) table
    let rhs ←
      if pyTruthy v then do
        let items ← pyIter v
        match items with
        | [] => .error .valueError
        | x :: xs => do
          let kx ← pyIndex x (.num 1)
          let m ← pyMaxByIdx1 x kx xs
          let m0 ← pyIndex m (.num 0)
          pyInt m0
      else pure (-1 : Int)
    if hashable table then simLoop2 l rest (dictSetJ table rhs acc) else .error .typeError

/-- The body of `_load_db` after a successful `json.loads`, by the shape of
the parsed value.  A non-empty string `_db` raises `TypeError` in the first
iteration of the first loop (string subscripted with a 1-character string);
the empty string and the empty list run both loops zero times. -/
def loadParsed : Json → Except PyErr PyLoaded
  | .obj kvs => (loadDict kvs).map .store
  | .arr [] => .ok (.raw (.arr []) [])
  | .arr (x :: xs) => do
    let l' ← simLoop1 (x :: xs).length (x :: xs) 0
    let h ← simLoop2 l' l' []
    pure (.raw (.arr l') h)
  | .str s => if s = "" then .ok (.raw (.str "") []) else .error .typeError
  | .null => .error .typeError
  | .bool _ => .error .typeError
  | .num _ => .error .typeError

/-- Errors out of `FriDB._load_db`: the `DBError` raised when `json.loads`
fails (the file is assumed corrupt), or an uncaught Python exception from the
two rebuild loops. -/
inductive LoadErr where
  | corrupt
  | py (e : PyErr)
deriving Repr, DecidableEq

/-- `FriDB._load_db`.  File content is modelled in parsed form: `none` stands
for text rejected by `json.loads` (only that case is caught and turned into
the corrupt-store `DBError`); `some j` for text parsing to `j`. -/
def _load_db (content : Option Json) : Except LoadErr PyLoaded :=
  match content with
  | none => .error .corrupt
  | some j => (loadParsed j).mapError .py

/-- Python values passed as table-name arguments; every operation runs them
through `str()` before lookup. -/
inductive PyVal where
  | pint : Int → PyVal
  | pstr : String → PyVal
  | pbool : Bool → PyVal
  | pnone : PyVal
deriving Repr, DecidableEq

/-- Python `str()` on such a value. -/
def strPy : PyVal → String
  | .pint n => toString n
  | .pstr s => s
  | .pbool b => if b then "True" else "False"
  | .pnone => "None"

/-- The engine's `DBError`, one constructor per distinct message raised by the
code. -/
inductive DBErr where
  | fileClosed
  | tableExists
  | tableMissing
  | updateMissing
  | deleteMissing
deriving Repr, DecidableEq

/-- The error taxonomy of the specification. -/
inductive ErrKind where
  | closedStore
  | tableExists
  | tableMissing
  | rowMissing
deriving Repr, DecidableEq

/-- Which specification error kind each `DBError` message belongs to; the two
row-missing messages (update vs delete) are the same `RowMissing` kind. -/
def DBErr.kind : DBErr → ErrKind
  | .fileClosed => .closedStore
  | .tableExists => .tableExists
  | .tableMissing => .tableMissing
  | .updateMissing => .rowMissing
  | .deleteMissing => .rowMissing

/-- Errors surfaced by the session operations: a `DBError`, or the `KeyError`
Python raises in `insert` if a table were present in `_db` but not in
`_highest_id`. -/
inductive Err where
  | db (e : DBErr)
  | keyError
deriving Repr, DecidableEq

/-- In-memory session state reached through the public operations: `_db` with
integer ids (as the operations create them), `_highest_id`, the backing file's
closed flag, its current content in parsed form (`none` = empty file), and a
count of completed `save` writes (instrumentation for the persist-once
property; it mirrors no stored Python value). -/
structure Sess where
  db : List (String × List (Int × Json))
  highest : List (String × Int)
  closed : Bool
  content : Option Json
  writes : Nat

/-- State right after `fridb.create(...)`: empty file, so `_create_new_db`
initialises both dicts empty; the file is open. -/
def freshSess : Sess := ⟨[], [], false, none, 0⟩

/-- `json.dump` of `_db`: each table serializes to an array of 2-element
arrays (tuples become arrays), dict order preserved. -/
def serializeDB (db : List (String × List (Int × Json))) : Json :=
  .obj (db.map (fun kv => (kv.1, .arr (kv.2.map (fun r => .arr [.num r.1, r.2])))))

/-- `FriDB.create_table`. -/
def create_table (s : Sess) (tablename : PyVal) : Sess × Except Err Unit :=
  if s.closed then (s, .error (.db .fileClosed)) else
  let table := strPy tablename
  if (jlookup table s.db).isSome then (s, .error (.db .tableExists))
  else ({ s with db := aset table [] s.db, highest := aset table (-1) s.highest }, .ok ())

/-- `FriDB.tables`: no liveness check, just the keys of `_db`. -/
def tables (s : Sess) : Sess × Except Err (List String) :=
  (s, .ok (s.db.map Prod.fst))

/-- `FriDB.drop_table`: removes the `_db` entry only (`_highest_id` keeps the
dropped table's counter). -/
def drop_table (s : Sess) (tablename : PyVal) : Sess × Except Err Unit :=
  if s.closed then (s, .error (.db .fileClosed)) else
  let table := strPy tablename
  if (jlookup table s.db).isNone then (s, .error (.db .tableMissing))
  else ({ s with db := adel table s.db }, .ok ())

/-- `FriDB.insert`: appends `(highest_id + 1, data)` and then increments the
counter.  The `_highest_id` subscript is evaluated before the append, so a
missing counter entry raises `KeyError` with no mutation. -/
def insert (s : Sess) (table : PyVal) (data : Json) : Sess × Except Err Unit :=
  if s.closed then (s, .error (.db .fileClosed)) else
  let t := strPy table
  match jlookup t s.db with
  | none => (s, .error (.db .tableMissing))
  | some rows =>
    match jlookup t s.highest with
    | none => (s, .error .keyError)
    | some h =>
      ({ s with db := aset t (rows ++ [(h + 1, data)]) s.db,
                highest := aset t (h + 1) s.highest }, .ok ())

/-- `FriDB.update`: after the liveness, table and id checks, rebuilds the row
list replacing every row whose id matches. -/
def update (s : Sess) (table : PyVal) (row_id : Int) (data : Json) : Sess × Except Err Unit :=
  if s.closed then (s, .error (.db .fileClosed)) else
  let t := strPy table
  match jlookup t s.db with
  | none => (s, .error (.db .tableMissing))
  | some rows =>
    if rows.any (fun r => r.1 == row_id) then
      ({ s with db := aset t (rows.map (fun r => if r.1 ≠ row_id then r else (row_id, data))) s.db },
       .ok ())
    else (s, .error (.db .updateMissing))

/-- `FriDB.select`: windowing by Python slicing, `ret[limit:]` for negative
limits and `ret[:limit]` for positive ones. -/
def select (s : Sess) (table : PyVal) (limit : Int) : Sess × Except Err (List (Int × Json)) :=
  if s.closed then (s, .error (.db .fileClosed)) else
  let t := strPy table
  match jlookup t s.db with
  | none => (s, .error (.db .tableMissing))
  | some rows =>
    let ret := if limit < 0 then rows.drop (rows.length - (-limit).toNat)
               else if limit > 0 then rows.take limit.toNat
               else rows
    (s, .ok ret)

/-- `FriDB.read`: `select`, then strip the ids. -/
def read (s : Sess) (table : PyVal) (limit : Int) : Sess × Except Err (List Json) :=
  match select s table limit with
  | (s', .ok rows) => (s', .ok (rows.map Prod.snd))
  | (s', .error e) => (s', .error e)

/-- `FriDB.delete`: after the checks, keeps the rows whose id differs. -/
def delete (s : Sess) (table : PyVal) (row_id : Int) : Sess × Except Err Unit :=
  if s.closed then (s, .error (.db .fileClosed)) else
  let t := strPy table
  match jlookup t s.db with
  | none => (s, .error (.db .tableMissing))
  | some rows =>
    if rows.any (fun r => r.1 == row_id) then
      ({ s with db := aset t (rows.filter (fun r => r.1 != row_id)) s.db }, .ok ())
    else (s, .error (.db .deleteMissing))

/-- `FriDB.save`: full-document rewrite (seek + truncate + dump + flush),
counted by `writes`. -/
def save (s : Sess) : Sess × Except Err Unit :=
  if s.closed then (s, .error (.db .fileClosed))
  else ({ s with content := some (serializeDB s.db), writes := s.writes + 1 }, .ok ())

/-- `FriDB.disconnect`: save if the file is still open, then close the file
and clear `_db` (the counter dict is kept).  Closing an already-closed file is
a no-op in Python, so a second call neither saves nor errors. -/
def disconnect (s : Sess) : Sess × Except Err Unit :=
  if s.closed then ({ s with db := [] }, .ok ())
  else
    match save s with
    | (s₁, .ok _) => ({ s₁ with closed := true, db := [] }, .ok ())
    | (s₁, .error e) => (s₁, .error e)

/-! ### Association-list lemmas -/

theorem jlookup_aset_self {β : Type} (k : String) (v : β) (l : List (String × β)) :
    jlookup k (aset k v l) = some v := by
  induction l with
  | nil => simp [aset, jlookup]
  | cons p rest ih =>
    obtain ⟨k', v'⟩ := p
    by_cases h : k' = k
    · simp [aset, h, jlookup]
    · simp [aset, h, jlookup, ih]

theorem jlookup_aset_ne {β : Type} (k q : String) (v : β) (l : List (String × β))
    (h : q ≠ k) : jlookup q (aset k v l) = jlookup q l := by
  induction l with
  | nil => simp [aset, jlookup, Ne.symm h]
  | cons p rest ih =>
    obtain ⟨k', v'⟩ := p
    by_cases hk : k' = k
    · subst hk
      simp [aset, jlookup, Ne.symm h]
    · simp [aset, hk, jlookup, ih]

/-! ### Identifier-allocation machinery (claim C4)

A trace of row operations confined to one table, the session states they
produce, and the identifiers the successful inserts assign (`insert` appends
`highest_id + 1` and stores the same value back into the counter). -/

/-- One row operation on a fixed table: insert a value, update an id, delete
an id. -/
inductive TOp where
  | ins (v : Json)
  | upd (id : Int) (v : Json)
  | del (id : Int)

/-- Number of inserts in a trace. -/
def countIns : List TOp → Nat
  | [] => 0
  | .ins _ :: r => countIns r + 1
  | .upd _ _ :: r => countIns r
  | .del _ :: r => countIns r

/-- The session state after one row operation on table `t` (failed operations
leave the state as the code left it at the raise). -/
def stepSess (t : String) (s : Sess) : TOp → Sess
  | .ins v => (insert s (.pstr t) v).1
  | .upd i v => (update s (.pstr t) i v).1
  | .del i => (delete s (.pstr t) i).1

/-- The identifier a successful insert assigns (the value it appends,
`highest_id[t] + 1`); failed operations assign none. -/
def stepIds (t : String) (s : Sess) : TOp → List Int
  | .ins v =>
    match (insert s (.pstr t) v).2 with
    | .ok _ =>
      match jlookup t s.highest with
      | some h => [h + 1]
      | none => []
    | .error _ => []
  | .upd _ _ => []
  | .del _ => []

/-- All identifiers assigned along a trace of row operations on table `t`. -/
def runT (t : String) (s : Sess) : List TOp → List Int
  | [] => []
  | op :: rest => stepIds t s op ++ runT t (stepSess t s op) rest

/-- The arithmetic sequence `h+1, h+2, ...` of length `n`. -/
def idsFrom (h : Int) : Nat → List Int
  | 0 => []
  | n + 1 => (h + 1) :: idsFrom (h + 1) n

theorem idsFrom_eq : ∀ (n : Nat) (h : Int),
    idsFrom h n = (List.range n).map (fun k : Nat => h + 1 + (k : Int)) := by
  intro n
  induction n with
  | zero => intro h; rfl
  | succ m ih =>
    intro h
    rw [List.range_succ_eq_map, List.map_cons, List.map_map]
    have h2 : ((fun k : Nat => h + 1 + (k : Int)) ∘ Nat.succ)
        = fun k : Nat => h + 1 + 1 + (k : Int) := by
      funext k
      show h + 1 + ((k + 1 : Nat) : Int) = h + 1 + 1 + (k : Int)
      push_cast
      ring
    rw [h2]
    simp only [idsFrom]
    rw [ih (h + 1)]
    norm_num

/-- Along any trace of row operations on an existing table of an open
session, the identifiers assigned by the inserts are exactly
`h+1, h+2, ...` where `h` is the table's counter at the start: each insert
assigns `counter + 1` and bumps the counter, while updates and deletes
(successful or not) never touch the counter. -/
theorem runT_eq_idsFrom (t : String) :
    ∀ (ops : List TOp) (s : Sess) (rows : List (Int × Json)) (h : Int),
      s.closed = false → jlookup t s.db = some rows → jlookup t s.highest = some h →
      runT t s ops = idsFrom h (countIns ops) := by
  intro ops
  induction ops with
  | nil => intro s rows h _ _ _; rfl
  | cons op rest ih =>
    intro s rows h hopen hrows hhigh
    cases op with
    | ins v =>
      have hins : insert s (.pstr t) v =
          ({ s with db := aset t (rows ++ [(h + 1, v)]) s.db,
                    highest := aset t (h + 1) s.highest }, .ok ()) := by
        simp [insert, strPy, hopen, hrows, hhigh]
      have hrec := ih ({ s with db := aset t (rows ++ [(h + 1, v)]) s.db,
                                highest := aset t (h + 1) s.highest })
        (rows ++ [(h + 1, v)]) (h + 1) hopen
        (jlookup_aset_self t (rows ++ [(h + 1, v)]) s.db)
        (jlookup_aset_self t (h + 1) s.highest)
      simp [runT, stepIds, stepSess, hins, hhigh, countIns, idsFrom, hrec]
    | upd i v =>
      by_cases hany : rows.any (fun r => r.1 == i)
      · have hupd : update s (.pstr t) i v =
            ({ s with db := aset t (rows.map (fun r => if r.1 = i then (i, v) else r)) s.db },
             .ok ()) := by
          simp [update, strPy, hopen, hrows, hany]
        have hrec := ih ({ s with db := aset t (rows.map (fun r => if r.1 = i then (i, v) else r)) s.db })
          (rows.map (fun r => if r.1 = i then (i, v) else r)) h hopen
          (jlookup_aset_self t _ s.db) hhigh
        simp [runT, stepIds, stepSess, hupd, countIns, hrec]
      · have hupd : update s (.pstr t) i v = (s, .error (.db .updateMissing)) := by
          simp [update, strPy, hopen, hrows, hany]
        have hrec := ih s rows h hopen hrows hhigh
        simp [runT, stepIds, stepSess, hupd, countIns, hrec]
    | del i =>
      by_cases hany : rows.any (fun r => r.1 == i)
      · have hdel : delete s (.pstr t) i =
            ({ s with db := aset t (rows.filter (fun r => r.1 != i)) s.db }, .ok ()) := by
          simp [delete, strPy, hopen, hrows, hany]
        have hrec := ih ({ s with db := aset t (rows.filter (fun r => r.1 != i)) s.db })
          (rows.filter (fun r => r.1 != i)) h hopen
          (jlookup_aset_self t _ s.db) hhigh
        simp [runT, stepIds, stepSess, hdel, countIns, hrec]
      · have hdel : delete s (.pstr t) i = (s, .error (.db .deleteMissing)) := by
          simp [delete, strPy, hopen, hrows, hany]
        have hrec := ih s rows h hopen hrows hhigh
        simp [runT, stepIds, stepSess, hdel, countIns, hrec]

/-! ### Frame helpers: failing mutators raise before mutating -/

theorem update_error_unchanged (s : Sess) (name : PyVal) (row_id : Int) (data : Json) :
    ∀ e, (update s name row_id data).2 = .error e → (update s name row_id data).1 = s := by
  intro e
  by_cases hc : s.closed
  · simp [update, hc]
  · cases hdb : jlookup (strPy name) s.db with
    | none => simp [update, hc, hdb]
    | some rows =>
      by_cases hany : rows.any (fun r => r.1 == row_id)
      · simp [update, hc, hdb, hany]
      · simp [update, hc, hdb, hany]

theorem delete_error_unchanged (s : Sess) (name : PyVal) (row_id : Int) :
    ∀ e, (delete s name row_id).2 = .error e → (delete s name row_id).1 = s := by
  intro e
  by_cases hc : s.closed
  · simp [delete, hc]
  · cases hdb : jlookup (strPy name) s.db with
    | none => simp [delete, hc, hdb]
    | some rows =>
      by_cases hany : rows.any (fun r => r.1 == row_id)
      · simp [delete, hc, hdb, hany]
      · simp [delete, hc, hdb, hany]

theorem insert_error_unchanged (s : Sess) (name : PyVal) (data : Json) :
    ∀ e, (insert s name data).2 = .error e → (insert s name data).1 = s := by
  intro e
  by_cases hc : s.closed
  · simp [insert, hc]
  · cases hdb : jlookup (strPy name) s.db with
    | none => simp [insert, hc, hdb]
    | some rows =>
      cases hh : jlookup (strPy name) s.highest with
      | none => simp [insert, hc, hdb, hh]
      | some h => simp [insert, hc, hdb, hh]

/-! ### List helpers for the frame properties -/

theorem map_id_of_ne (A : List (Int × Json)) (i : Int) (v : Json)
    (hA : ∀ r ∈ A, r.1 ≠ i) :
    A.map (fun r => if r.1 = i then (i, v) else r) = A := by
  induction A with
  | nil => rfl
  | cons a rest ih =>
    have ha := hA a (by simp)
    simp only [List.map_cons, if_neg ha, List.cons.injEq, true_and]
    exact ih (fun r hr => hA r (by simp [hr]))

theorem filter_id_of_ne (A : List (Int × Json)) (i : Int)
    (hA : ∀ r ∈ A, r.1 ≠ i) :
    A.filter (fun r => r.1 != i) = A := by
  induction A with
  | nil => rfl
  | cons a rest ih =>
    have ha := hA a (by simp)
    simp [List.filter_cons, ha, ih (fun r hr => hA r (by simp [hr]))]

/-- A sample open session with one table holding one row, used to instantiate
theorems with hypotheses at concrete inputs. -/
def sampleSess : Sess := ⟨[("t", [(0, Json.null)])], [("t", 0)], false, none, 0⟩

/-! ### The claims -/

/-- C4: within one session, along any trace of inserts into a freshly created
table, interleaved arbitrarily with updates and deletes in that table, the
identifiers assigned by the inserts are exactly 0, 1, 2, ... — strictly
increasing by one per insert starting at 0 — so no two inserts receive the
same identifier and a deleted identifier is never reissued. -/
theorem c4_insert_ids_sequential (s : Sess) (name : PyVal) (ops : List TOp)
    (hopen : s.closed = false) (habsent : jlookup (strPy name) s.db = none) :
    runT (strPy name) (create_table s name).1 ops
        = (List.range (countIns ops)).map (fun k : Nat => (k : Int)) ∧
    (runT (strPy name) (create_table s name).1 ops).Nodup := by
  have hct : (create_table s name).1 =
      { s with db := aset (strPy name) [] s.db,
               highest := aset (strPy name) (-1) s.highest } := by
    simp [create_table, hopen, habsent]
  have hrun : runT (strPy name) (create_table s name).1 ops = idsFrom (-1) (countIns ops) := by
    rw [hct]
    exact runT_eq_idsFrom (strPy name) ops _ [] (-1) hopen
      (jlookup_aset_self _ _ _) (jlookup_aset_self _ _ _)
  constructor
  · rw [hrun, idsFrom_eq]
    refine List.map_congr_left ?_
    intro k _
    omega
  · rw [hrun, idsFrom_eq]
    exact (List.nodup_range _).map (fun a b hab => by omega)

/-- Witness for C4: on a fresh session, create a table and run insert, delete
of id 0, insert — the assigned identifiers are 0 and 1. -/
theorem c4_insert_ids_sequential_witness :
    runT (strPy (.pstr "t")) (create_table freshSess (.pstr "t")).1
        [TOp.ins .null, TOp.del 0, TOp.ins .null]
      = (List.range (countIns [TOp.ins .null, TOp.del 0, TOp.ins .null])).map
          (fun k : Nat => (k : Int)) ∧
    (runT (strPy (.pstr "t")) (create_table freshSess (.pstr "t")).1
        [TOp.ins .null, TOp.del 0, TOp.ins .null]).Nodup :=
  c4_insert_ids_sequential freshSess (.pstr "t")
    [TOp.ins .null, TOp.del 0, TOp.ins .null] rfl rfl

/-- C5: on an open session, for an existing table with row list `rows` and
any integer limit, `select` leaves the state unchanged and returns all rows
when the limit is 0, the first `limit` rows (`min limit N` of them) when the
limit is positive, and the final `.abs limit` rows in their original order
(`min .abs limit N` of them) when the limit is negative. -/
theorem c5_select_windowing (s : Sess) (name : PyVal) (limit : Int)
    (rows : List (Int × Json))
    (hopen : s.closed = false) (hrows : jlookup (strPy name) s.db = some rows) :
    (select s name limit).1 = s ∧
    (limit = 0 → (select s name limit).2 = .ok rows) ∧
    (0 < limit → (select s name limit).2 = .ok (rows.take limit.toNat) ∧
      (rows.take limit.toNat).length = min limit.toNat rows.length) ∧
    (limit < 0 → (select s name limit).2 = .ok (rows.drop (rows.length - (-limit).toNat)) ∧
      (rows.drop (rows.length - (-limit).toNat)).length = min (-limit).toNat rows.length) := by
  have hsel : select s name limit =
      (s, .ok (if limit < 0 then rows.drop (rows.length - (-limit).toNat)
               else if limit > 0 then rows.take limit.toNat else rows)) := by
    simp [select, hopen, hrows]
  refine ⟨by rw [hsel], ?_, ?_, ?_⟩
  · intro h0
    rw [hsel]
    simp [h0]
  · intro hpos
    have hn : ¬ limit < 0 := by omega
    refine ⟨by rw [hsel]; simp [hn, hpos], ?_⟩
    rw [List.length_take]
  · intro hneg
    refine ⟨by rw [hsel]; simp [hneg], ?_⟩
    rw [List.length_drop]
    omega

/-- Witness for C5: selecting with limit -5 from a one-row table returns the
single row. -/
theorem c5_select_windowing_witness :
    (select sampleSess (.pstr "t") (-5)).2 = .ok [(0, Json.null)] := by
  have h := c5_select_windowing sampleSess (.pstr "t") (-5) [(0, Json.null)] rfl rfl
  exact ((h.2.2.2 (by norm_num)).1).trans (by norm_num)

/-- C7: on an open session, update and delete fail with the table-missing
`DBError` when the table is absent and with their row-missing `DBError`
(both of the `RowMissing` kind) when the table exists but no row carries the
given identifier — in both cases leaving the state untouched — and every
failing insert, update or delete call leaves the state exactly as it was. -/
theorem c7_precondition_errors (s : Sess) (name : PyVal) (row_id : Int) (data : Json) :
    (s.closed = false → jlookup (strPy name) s.db = none →
      update s name row_id data = (s, .error (.db .tableMissing)) ∧
      delete s name row_id = (s, .error (.db .tableMissing))) ∧
    (∀ rows, s.closed = false → jlookup (strPy name) s.db = some rows →
      (∀ r ∈ rows, r.1 ≠ row_id) →
      update s name row_id data = (s, .error (.db .updateMissing)) ∧
      delete s name row_id = (s, .error (.db .deleteMissing)) ∧
      DBErr.kind .updateMissing = .rowMissing ∧ DBErr.kind .deleteMissing = .rowMissing) ∧
    (∀ e, (update s name row_id data).2 = .error e → (update s name row_id data).1 = s) ∧
    (∀ e, (delete s name row_id).2 = .error e → (delete s name row_id).1 = s) ∧
    (∀ e, (insert s name data).2 = .error e → (insert s name data).1 = s) := by
  refine ⟨?_, ?_, update_error_unchanged s name row_id data,
    delete_error_unchanged s name row_id, insert_error_unchanged s name data⟩
  · intro hopen habs
    constructor
    · simp [update, hopen, habs]
    · simp [delete, hopen, habs]
  · intro rows hopen hrows hnone
    have hany : rows.any (fun r => r.1 == row_id) = false := by
      rw [List.any_eq_false]
      intro r hr
      simpa using hnone r hr
    refine ⟨?_, ?_, rfl, rfl⟩
    · simp [update, hopen, hrows, hany]
    · simp [delete, hopen, hrows, hany]

/-- Witness for C7: on the sample session, updating a missing table fails
with the table-missing error and deleting a missing id fails with the
delete-missing error, both leaving the session unchanged. -/
theorem c7_precondition_errors_witness :
    update sampleSess (.pstr "missing") 0 .null = (sampleSess, .error (.db .tableMissing)) ∧
    delete sampleSess (.pstr "t") 5 = (sampleSess, .error (.db .deleteMissing)) := by
  have h1 := c7_precondition_errors sampleSess (.pstr "missing") 0 .null
  have h2 := c7_precondition_errors sampleSess (.pstr "t") 5 .null
  refine ⟨(h1.1 rfl rfl).1, ?_⟩
  have hr : ∀ r ∈ [((0 : Int), Json.null)], r.1 ≠ 5 := by
    intro r hr
    rw [List.mem_singleton] at hr
    subst hr
    decide
  exact (h2.2.1 [(0, Json.null)] rfl rfl hr).2.1

/-- C8: a successful update replaces exactly the value of the row carrying
the identifier, preserving its position and identifier and all other rows of
all tables; a successful delete removes exactly that row, leaving all other
rows and their identifiers untouched; neither operation changes any table's
highest-identifier counter. -/
theorem c8_update_delete_frame (s : Sess) (name : PyVal) (row_id : Int) (data w : Json)
    (A B : List (Int × Json))
    (hopen : s.closed = false)
    (hrows : jlookup (strPy name) s.db = some (A ++ (row_id, w) :: B))
    (hA : ∀ r ∈ A, r.1 ≠ row_id) (hB : ∀ r ∈ B, r.1 ≠ row_id) :
    update s name row_id data =
      ({ s with db := aset (strPy name) (A ++ (row_id, data) :: B) s.db }, .ok ()) ∧
    delete s name row_id =
      ({ s with db := aset (strPy name) (A ++ B) s.db }, .ok ()) ∧
    jlookup (strPy name) (update s name row_id data).1.db = some (A ++ (row_id, data) :: B) ∧
    jlookup (strPy name) (delete s name row_id).1.db = some (A ++ B) ∧
    (∀ u, u ≠ strPy name →
      jlookup u (update s name row_id data).1.db = jlookup u s.db ∧
      jlookup u (delete s name row_id).1.db = jlookup u s.db) ∧
    (update s name row_id data).1.highest = s.highest ∧
    (delete s name row_id).1.highest = s.highest := by
  have hany : (A ++ (row_id, w) :: B).any (fun r => r.1 == row_id) = true := by simp
  have hmap : (A ++ (row_id, w) :: B).map (fun r => if r.1 = row_id then (row_id, data) else r)
      = A ++ (row_id, data) :: B := by
    rw [List.map_append, List.map_cons,
      map_id_of_ne A row_id data hA, map_id_of_ne B row_id data hB]
    simp
  have hfil : (A ++ (row_id, w) :: B).filter (fun r => r.1 != row_id) = A ++ B := by
    rw [List.filter_append, List.filter_cons,
      filter_id_of_ne A row_id hA, filter_id_of_ne B row_id hB]
    simp
  have hupd : update s name row_id data =
      ({ s with db := aset (strPy name) (A ++ (row_id, data) :: B) s.db }, .ok ()) := by
    simp [update, hopen, hrows, hany, hmap]
  have hdel : delete s name row_id =
      ({ s with db := aset (strPy name) (A ++ B) s.db }, .ok ()) := by
    simp [delete, hopen, hrows, hany, hfil]
  refine ⟨hupd, hdel, ?_, ?_, ?_, ?_, ?_⟩
  · rw [hupd]
    exact jlookup_aset_self _ _ _
  · rw [hdel]
    exact jlookup_aset_self _ _ _
  · intro u hu
    exact ⟨by rw [hupd]; exact jlookup_aset_ne _ _ _ _ hu,
           by rw [hdel]; exact jlookup_aset_ne _ _ _ _ hu⟩
  · rw [hupd]
  · rw [hdel]

/-- Witness for C8: updating the only row of the sample session's table
replaces its value in place. -/
theorem c8_update_delete_frame_witness :
    update sampleSess (.pstr "t") 0 (.bool true) =
      ({ sampleSess with db := aset "t" [(0, Json.bool true)] sampleSess.db }, .ok ()) := by
  have h := c8_update_delete_frame sampleSess (.pstr "t") 0 (.bool true) .null [] [] rfl rfl
    (by intro r hr; cases hr) (by intro r hr; cases hr)
  exact h.1

/-- C9: the first disconnect of a live session persists the store exactly
once (one more completed write, content equal to the serialized store), then
closes the file and clears the in-memory store; a second disconnect returns
successfully and changes nothing — in particular it does not persist again. -/
theorem c9_disconnect_idempotent (s : Sess) (hopen : s.closed = false) :
    disconnect s =
      ({ db := [], highest := s.highest, closed := true,
         content := some (serializeDB s.db), writes := s.writes + 1 }, .ok ()) ∧
    disconnect (disconnect s).1 = ((disconnect s).1, .ok ()) := by
  have h1 : disconnect s =
      ({ db := [], highest := s.highest, closed := true,
         content := some (serializeDB s.db), writes := s.writes + 1 }, .ok ()) := by
    simp [disconnect, save, hopen]
  refine ⟨h1, ?_⟩
  rw [h1]
  rfl

/-- Witness for C9 on a fresh session. -/
theorem c9_disconnect_idempotent_witness :
    disconnect freshSess =
      ({ db := [], highest := [], closed := true,
         content := some (serializeDB []), writes := 1 }, .ok ()) ∧
    disconnect (disconnect freshSess).1 = ((disconnect freshSess).1, .ok ()) :=
  c9_disconnect_idempotent freshSess rfl

/-- Session state produced by the public operations: create the store, create
table "t", insert value "b", insert value "a", save. -/
def c1Sess : Sess :=
  (save (insert (insert (create_table freshSess (.pstr "t")).1 (.pstr "t") (.str "b")).1
      (.pstr "t") (.str "a")).1).1

/-- C1 (refuted, code bug): immediately after a successful load of content
persisted through the public operations, the recomputed highest-identifier
counter can be strictly below the maximum identifier present in the table:
`_load_db` takes the maximum of the rebuilt rows keyed on the row value
(item 1) instead of the identifier (item 0), so the store below — rows
(0, "b") and (1, "a") — reloads with counter 0 although identifier 1 is
present, violating the claimed counter invariant and recompute rule. -/
theorem c1_load_counter_below_max_id :
    c1Sess.content
      = some (.obj [("t", .arr [.arr [.num 0, .str "b"], .arr [.num 1, .str "a"]])]) ∧
    _load_db c1Sess.content =
      .ok (.store ⟨[("t", [(.num 0, .str "b"), (.num 1, .str "a")])], [("t", 0)]⟩) :=
  ⟨rfl, rfl⟩

/-- C2 (counterexample to the claim as stated): content parsing to the object
that maps "t" to the number 5 is valid JSON whose row collection is not a
sequence of pairs, yet loading raises `TypeError` — not the corrupt-store
`DBError` the claim requires for such content. -/
theorem c2_malformed_rows_not_corrupt :
    _load_db (some (.obj [("t", .num 5)])) = .error (.py .typeError) ∧
    _load_db (some (.obj [("t", .num 5)])) ≠ .error .corrupt := by
  refine ⟨rfl, ?_⟩
  intro h
  rw [show _load_db (some (.obj [("t", .num 5)])) = .error (.py .typeError) from rfl] at h
  simp at h

/-- C2 (amended): loading non-empty content fails with the corrupt-store
`DBError` exactly when the content is not valid JSON (and a failed load
returns no store); malformed row collections behind a successful parse
surface as other, uncaught errors instead. -/
theorem c2_corrupt_iff_invalid_json (c : Option Json) :
    _load_db c = .error .corrupt ↔ c = none := by
  cases c with
  | none => simp [_load_db]
  | some j =>
    simp only [_load_db]
    cases hl : loadParsed j with
    | ok v => simp [Except.mapError]
    | error e => simp [Except.mapError]

/-- Session state: create table "t" on a fresh session, then disconnect. -/
def c3Sess : Sess := (disconnect (create_table freshSess (.pstr "t")).1).1

/-- C3 (refuted, code bug): after close every other public operation fails
with the closed-store error, but `tables()` has no liveness guard — on a
closed session it succeeds and returns the empty list (disconnect cleared
`_db`), although the module documentation promises that every public method
except disconnect raises once the file is closed. -/
theorem c3_tables_after_close_no_guard :
    c3Sess.closed = true ∧ tables c3Sess = (c3Sess, .ok []) :=
  ⟨rfl, rfl⟩

/-- Session state produced by the public operations: create the store, create
table "t", insert null twice, save. -/
def c6Sess : Sess :=
  (save (insert (insert (create_table freshSess (.pstr "t")).1 (.pstr "t") .null).1
      (.pstr "t") .null).1).1

/-- C6 (refuted, code bug): persist-then-load does not succeed for every
store reachable through the public operations — after inserting two null
values and saving, reloading the persisted content raises `TypeError`,
because the counter recompute in `_load_db` compares the row values (null
against null) instead of the integer identifiers. -/
theorem c6_roundtrip_load_raises :
    c6Sess.content
      = some (.obj [("t", .arr [.arr [.num 0, .null], .arr [.num 1, .null]])]) ∧
    _load_db c6Sess.content = .error (.py .typeError) :=
  ⟨rfl, rfl⟩

/-- C10: every table and row operation coerces its table-name argument with
str() before lookup, so passing any value addresses the table named str(v);
in particular, after create_table(1) an insert into "1" succeeds and a second
create_table — with "1" or with 1 — fails with the table-exists error. -/
theorem c10_table_name_coerced :
    (∀ (s : Sess) (v : PyVal), create_table s v = create_table s (.pstr (strPy v))) ∧
    (∀ (s : Sess) (v : PyVal), drop_table s v = drop_table s (.pstr (strPy v))) ∧
    (∀ (s : Sess) (v : PyVal) (d : Json), insert s v d = insert s (.pstr (strPy v)) d) ∧
    (∀ (s : Sess) (v : PyVal) (i : Int) (d : Json),
      update s v i d = update s (.pstr (strPy v)) i d) ∧
    (∀ (s : Sess) (v : PyVal) (i : Int), delete s v i = delete s (.pstr (strPy v)) i) ∧
    (∀ (s : Sess) (v : PyVal) (l : Int), select s v l = select s (.pstr (strPy v)) l) ∧
    (∀ (s : Sess) (v : PyVal) (l : Int), read s v l = read s (.pstr (strPy v)) l) ∧
    (insert (create_table freshSess (.pint 1)).1 (.pstr "1") (.str "x")).2 = .ok () ∧
    (create_table (create_table freshSess (.pint 1)).1 (.pstr "1")).2
      = .error (.db .tableExists) ∧
    (create_table (create_table freshSess (.pint 1)).1 (.pint 1)).2
      = .error (.db .tableExists) :=
  ⟨fun _ _ => rfl, fun _ _ => rfl, fun _ _ _ => rfl, fun _ _ _ _ => rfl,
   fun _ _ _ => rfl, fun _ _ _ => rfl, fun _ _ _ => rfl, rfl, rfl, rfl⟩

end FriDB
